import Mathlib

/-!
Verification development for `pypippark` (source file `src/pypippark.py`).

The script manages a per-user Python virtual environment: it ensures the
venv exists (`ensure_venv`), builds a child-process environment overlay
(`activate_env`), and dispatches the CLI verbs install / list / remove /
update / run, each of which shells out to the venv pip or interpreter.

Shallow embedding conventions:
  * The interpreter-visible world is a `Sys` record: which paths exist as
    directories / regular files, which paths the current process may write
    (`os.access(p, os.W_OK)`), the effective uid (`os.geteuid()`), the user
    name (`getpass.getuser()`), and the process environment `os.environ`.
  * External processes (`subprocess.run`) and `log` calls are recorded in an
    event trace.  The exit codes and captured stdout of spawned processes are
    supplied as explicit oracle arguments, since they come from outside the
    program.
  * `subprocess.run(..., check=True)` raises `CalledProcessError` on a
    non-zero exit; `sys.exit(c)` raises `SystemExit c`.  Both are modelled in
    `PyErr`.  CPython terminates with status `c` on an uncaught
    `SystemExit c` and with status 1 (after printing a traceback) on any
    other uncaught exception; `interpExit` encodes this.
  * Environment mappings are association lists with Python-dict update
    semantics (`envGet` / `envSet` / `envPop`).
-/

namespace Pypippark

/-- Python dict holding environment variables (`os.environ` and copies). -/
abbrev EnvMap := List (String × String)

/-- Dict lookup: `d.get(k)` / `d[k]`. -/
def envGet : EnvMap → String → Option String
  | [], _ => none
  | (k0, v0) :: t, k => if k0 = k then some v0 else envGet t k

/-- Dict update `d[k] = v`: replaces an existing binding in place, else
appends (Python dicts keep insertion order). -/
def envSet : EnvMap → String → String → EnvMap
  | [], k, v => [(k, v)]
  | (k0, v0) :: t, k, v =>
      if k0 = k then (k, v) :: t else (k0, v0) :: envSet t k v

/-- Dict removal `d.pop(k, None)`. -/
def envPop : EnvMap → String → EnvMap
  | [], _ => []
  | (k0, v0) :: t, k => if k0 = k then envPop t k else (k0, v0) :: envPop t k

/-- `os.pathsep` on POSIX. -/
def pathsep : String := ":"

/-- `os.path.join a b` on POSIX: `b` if `b` is absolute, else `a` and `b`
joined with a single slash (no extra slash when `a` is empty or already ends
with one). -/
def osPathJoin (a b : String) : String :=
  if b.data.head? = some '/' then b
  else if a.data = [] || a.data.getLast? = some '/' then a ++ b
  else a ++ "/" ++ b

/-- Characters stripped by Python `str.strip()`. -/
def isPyWs (c : Char) : Bool :=
  c == ' ' || c == '\t' || c == '\n' || c == '\r' || c == '\x0b' || c == '\x0c'

/-- Python `str.strip()`: drop whitespace from both ends. -/
def pyStrip (s : String) : String :=
  String.mk (((s.data.dropWhile isPyWs).reverse.dropWhile isPyWs).reverse)

/-- Helper for `pySplitlines`: split at line boundaries, accumulating the
current (reversed) line. -/
def pySplitlinesAux : List Char → List Char → List String
  | [], acc => if acc.isEmpty then [] else [String.mk acc.reverse]
  | '\r' :: '\n' :: rest, acc => String.mk acc.reverse :: pySplitlinesAux rest []
  | '\n' :: rest, acc => String.mk acc.reverse :: pySplitlinesAux rest []
  | '\r' :: rest, acc => String.mk acc.reverse :: pySplitlinesAux rest []
  | c :: rest, acc => pySplitlinesAux rest (c :: acc)

/-- Python `str.splitlines()`: split on line boundaries, with no trailing
empty piece for a trailing newline. -/
def pySplitlines (s : String) : List String := pySplitlinesAux s.data []

/-- Text of `l` before its first occurrence of the separator `==`
(all of `l` when the separator is absent). -/
def takeBeforeEqEq : List Char → List Char
  | [] => []
  | '=' :: '=' :: _ => []
  | c :: rest => c :: takeBeforeEqEq rest

/-- Python `l.split("==")[0]`. -/
def splitEqEqHead (l : String) : String := String.mk (takeBeforeEqEq l.data)

/-- First entry of a search-path string: the text before the first `:`. -/
def firstPathEntry (s : String) : String :=
  String.mk (s.data.takeWhile (fun c => c != ':'))

/-- `sys.executable` at startup.  Its concrete value is machine-dependent and
no claim depends on it; it only appears as `argv[0]` of the venv-creation
spawn. -/
def SYSTEM_PY : String := "/usr/bin/python3"

/-- Python `repr` of a simple string: the text wrapped in single quotes
(used by the f-string conversion in `cmd_run`). -/
def pyRepr (s : String) : String :=
  String.singleton (Char.ofNat 39) ++ s ++ String.singleton (Char.ofNat 39)

/-- Interpreter-visible world state. -/
structure Sys where
  /-- paths for which `os.path.isdir` holds -/
  dirs : List String
  /-- paths for which `os.path.isfile` holds -/
  files : List String
  /-- paths for which `os.access(p, os.W_OK)` holds -/
  writable : List String
  /-- `os.geteuid()` -/
  euid : Nat
  /-- `getpass.getuser()` -/
  user : String
  /-- `os.environ` -/
  environ : EnvMap
deriving Repr, DecidableEq

/-- Python exceptions that escape the handlers. -/
inductive PyErr where
  /-- `subprocess.CalledProcessError` carrying the child exit code -/
  | calledProcess (code : Int)
  /-- `SystemExit` from `sys.exit` -/
  | systemExit (code : Nat)
deriving Repr, DecidableEq

/-- Observable events: spawned external processes (argv and, when the call
passes `env=`, the overlay) and `log` lines (level and message; `log` prints
the message behind the fixed prefix and a level emoji). -/
inductive Event where
  | spawn (argv : List String) (env : Option EnvMap)
  | logMsg (level : String) (msg : String)
deriving Repr, DecidableEq

/-- The argv lists of the spawned processes in a trace. -/
def spawnArgvs : List Event → List (List String)
  | [] => []
  | Event.spawn argv _ :: t => argv :: spawnArgvs t
  | Event.logMsg _ _ :: t => spawnArgvs t

/-- Process exit status of the whole script given how the handler ended:
normal return gives 0, an uncaught `SystemExit c` gives `c`, any other
uncaught exception (here `CalledProcessError`) makes CPython print a
traceback and exit with status 1. -/
def interpExit : Except PyErr Unit → Nat
  | Except.ok _ => 0
  | Except.error (PyErr.systemExit c) => c
  | Except.error (PyErr.calledProcess _) => 1

/-- `ensure_venv(path)` (source lines 26-44).
1. When `path` is not a directory, spawn `SYSTEM_PY -m venv path`
   (`check=True`); on success the directory exists and is writable by its
   creator.
2. When `path` is not writable and the effective uid is 0, spawn
   `chown -R user:user path` (`check=True`).
3. Return `(path/bin/python3, path/bin/pip)`.
`venvExit` and `chownExit` are the oracle exit codes of the two spawns. -/
def ensure_venv (s : Sys) (path : String) (venvExit chownExit : Int) :
    List Event × Sys × Except PyErr (String × String) :=
  let rest := fun (t : List Event) (s1 : Sys) =>
    if !(s1.writable.contains path) && (s1.euid == 0) then
      let t2 := t ++
        [Event.logMsg "WARNING"
          ("Fixing ownership on " ++ path ++ " → " ++ s1.user ++ ":" ++ s1.user),
         Event.spawn ["chown", "-R", s1.user ++ ":" ++ s1.user, path] none]
      if chownExit = 0 then
        (t2, { s1 with writable := path :: s1.writable },
         Except.ok (osPathJoin (osPathJoin path "bin") "python3",
                    osPathJoin (osPathJoin path "bin") "pip"))
      else (t2, s1, Except.error (PyErr.calledProcess chownExit))
    else
      (t, s1, Except.ok (osPathJoin (osPathJoin path "bin") "python3",
                         osPathJoin (osPathJoin path "bin") "pip"))
  if s.dirs.contains path then rest [] s
  else
    let t := [Event.logMsg "INFO" ("Creating virtualenv at " ++ path),
              Event.spawn [SYSTEM_PY, "-m", "venv", path] none]
    if venvExit = 0 then
      rest t { s with dirs := path :: s.dirs, writable := path :: s.writable }
    else (t, s, Except.error (PyErr.calledProcess venvExit))

/-- `activate_env(path)` (source lines 46-57): copy `os.environ`, set
`VIRTUAL_ENV`, prepend `path/bin` to `PATH` (empty default when `PATH` is
absent), and drop `PYTHONHOME`. -/
def activate_env (path : String) (environ : EnvMap) : EnvMap :=
  let env := environ
  let env := envSet env "VIRTUAL_ENV" path
  let env := envSet env "PATH"
      (osPathJoin path "bin" ++ pathsep ++ (envGet env "PATH").getD "")
  envPop env "PYTHONHOME"

/-- Calling `activate_env` inside a handler: the body only reads a fresh
copy of `os.environ`; it spawns nothing and leaves the interpreter state
untouched, returning the overlay. -/
def activate_env_call (s : Sys) (path : String) : Sys × List Event × EnvMap :=
  (s, [], activate_env path s.environ)

/-- Names the update query parses out of the stripped freeze-format output:
`[line.split("==")[0] for line in out.splitlines() if line]`
(source line 104). -/
def parseOutdated (out : String) : List String :=
  ((pySplitlines out).filter (fun l => l != "")).map splitEqEqHead

/-- `cmd_install(pkgs)` (source lines 59-65): bootstrap, then
`pip install <pkgs...>` with the overlay (`check=True`).  `installExit` is
the oracle exit code of the pip call. -/
def cmd_install (s : Sys) (path : String) (venvExit chownExit : Int)
    (pkgs : List String) (installExit : Int) : List Event × Except PyErr Unit :=
  match ensure_venv s path venvExit chownExit with
  | (t, _, Except.error e) => (t, Except.error e)
  | (t, s1, Except.ok (_, pip)) =>
    let t := t ++ [Event.logMsg "INFO"
      ("Installing " ++ String.intercalate ", " pkgs ++ " …")]
    let env := activate_env path s1.environ
    let t := t ++ [Event.spawn ([pip, "install"] ++ pkgs) (some env)]
    if installExit = 0 then
      (t ++ [Event.logMsg "SUCCESS" ("Installed " ++ String.intercalate ", " pkgs)],
       Except.ok ())
    else (t, Except.error (PyErr.calledProcess installExit))

/-- `cmd_list()` (source lines 67-72): bootstrap, then `pip list` with the
overlay (`check=True`). -/
def cmd_list (s : Sys) (path : String) (venvExit chownExit : Int)
    (listExit : Int) : List Event × Except PyErr Unit :=
  match ensure_venv s path venvExit chownExit with
  | (t, _, Except.error e) => (t, Except.error e)
  | (t, s1, Except.ok (_, pip)) =>
    let t := t ++ [Event.logMsg "INFO" "Listing installed packages …"]
    let env := activate_env path s1.environ
    let t := t ++ [Event.spawn [pip, "list"] (some env)]
    if listExit = 0 then (t, Except.ok ())
    else (t, Except.error (PyErr.calledProcess listExit))

/-- `cmd_remove(pkgs)` (source lines 74-80): bootstrap, then
`pip uninstall -y <pkgs...>` with the overlay (`check=True`). -/
def cmd_remove (s : Sys) (path : String) (venvExit chownExit : Int)
    (pkgs : List String) (removeExit : Int) : List Event × Except PyErr Unit :=
  match ensure_venv s path venvExit chownExit with
  | (t, _, Except.error e) => (t, Except.error e)
  | (t, s1, Except.ok (_, pip)) =>
    let t := t ++ [Event.logMsg "WARNING"
      ("Removing " ++ String.intercalate ", " pkgs ++ " …")]
    let env := activate_env path s1.environ
    let t := t ++ [Event.spawn ([pip, "uninstall", "-y"] ++ pkgs) (some env)]
    if removeExit = 0 then
      (t ++ [Event.logMsg "SUCCESS" ("Removed " ++ String.intercalate ", " pkgs)],
       Except.ok ())
    else (t, Except.error (PyErr.calledProcess removeExit))

/-- `cmd_update()` (source lines 82-108): bootstrap, build the overlay once,
then
1. `pip install --upgrade pip` (`check=True`, oracle exit `selfUpExit`);
2. `pip list --outdated --format=freeze` with `capture_output=True` and NO
   `check=True`: its exit code (`queryExit`) is ignored and its captured
   stdout is `queryOut`;
3. when the stripped stdout is empty, report success and return; otherwise
   parse the package names and run one batch
   `pip install --upgrade <names...>` (`check=True`, oracle exit
   `batchExit`). -/
def cmd_update (s : Sys) (path : String) (venvExit chownExit selfUpExit : Int)
    (queryExit : Int) (queryOut : String) (batchExit : Int) :
    List Event × Except PyErr Unit :=
  match ensure_venv s path venvExit chownExit with
  | (t, _, Except.error e) => (t, Except.error e)
  | (t, s1, Except.ok (_, pip)) =>
    let env := activate_env path s1.environ
    let t := t ++ [Event.logMsg "INFO" "Upgrading pip …",
                   Event.spawn [pip, "install", "--upgrade", "pip"] (some env)]
    if selfUpExit = 0 then
      let t := t ++ [Event.logMsg "INFO" "Checking for outdated packages …",
                     Event.spawn [pip, "list", "--outdated", "--format=freeze"]
                       (some env)]
      let out := pyStrip queryOut
      if out = "" then
        (t ++ [Event.logMsg "SUCCESS" "All packages are already up-to-date"],
         Except.ok ())
      else
        let pkgs := parseOutdated out
        let t := t ++ [Event.logMsg "INFO"
                         ("Upgrading " ++ String.intercalate ", " pkgs ++ " …"),
                       Event.spawn ([pip, "install", "--upgrade"] ++ pkgs)
                         (some env)]
        if batchExit = 0 then
          (t ++ [Event.logMsg "SUCCESS" "All packages updated"], Except.ok ())
        else (t, Except.error (PyErr.calledProcess batchExit))
    else (t, Except.error (PyErr.calledProcess selfUpExit))

/-- `cmd_run(script, script_args)` (source lines 110-120): bootstrap, then
when the script is not a regular file, log an error and `sys.exit(1)`;
otherwise run `python_bin script <args...>` with the overlay (`check=True`,
oracle exit `runExit`). -/
def cmd_run (s : Sys) (path : String) (venvExit chownExit : Int)
    (script : String) (args : List String) (runExit : Int) :
    List Event × Except PyErr Unit :=
  match ensure_venv s path venvExit chownExit with
  | (t, _, Except.error e) => (t, Except.error e)
  | (t, s1, Except.ok (python_bin, _)) =>
    if s1.files.contains script then
      let t := t ++ [Event.logMsg "INFO" ("Running " ++ pyRepr script ++ " …")]
      let env := activate_env path s1.environ
      let t := t ++ [Event.spawn ([python_bin, script] ++ args) (some env)]
      if runExit = 0 then
        (t ++ [Event.logMsg "SUCCESS" ("Finished " ++ pyRepr script)],
         Except.ok ())
      else (t, Except.error (PyErr.calledProcess runExit))
    else
      (t ++ [Event.logMsg "ERROR" ("Script not found: " ++ script)],
       Except.error (PyErr.systemExit 1))

/-- A parsed command line. -/
inductive Cmd where
  | install (pkgs : List String)
  | list
  | remove (pkgs : List String)
  | update
  | run (script : String) (args : List String)
deriving Repr, DecidableEq

/-- The argparse configuration of `main` (source lines 122-144): a required
subcommand; `install` and `remove` demand at least one package
(`nargs="+"`); `run` demands a script and passes the remainder through.  On
any parse error argparse prints the usage message to stderr and exits with
status 2.  Modelled for option-free argv tokens, which is all the claims
need. -/
def parseArgs : List String → Except Nat Cmd
  | "install" :: rest => if rest.isEmpty then Except.error 2
                         else Except.ok (Cmd.install rest)
  | "list" :: rest => if rest.isEmpty then Except.ok Cmd.list
                      else Except.error 2
  | "remove" :: rest => if rest.isEmpty then Except.error 2
                        else Except.ok (Cmd.remove rest)
  | "update" :: rest => if rest.isEmpty then Except.ok Cmd.update
                        else Except.error 2
  | "run" :: script :: args => Except.ok (Cmd.run script args)
  | _ => Except.error 2

/-- Oracle results for the external processes a single invocation may
spawn. -/
structure Oracle where
  venvExit : Int
  chownExit : Int
  selfUpExit : Int
  queryExit : Int
  queryOut : String
  batchExit : Int
  /-- exit code of the main pip / interpreter call of the chosen verb -/
  mainExit : Int
deriving Repr, DecidableEq

/-- `main()` (source lines 122-154): parse the command line and dispatch.
`venvPath` is the module constant `VENV_PATH`
(`os.path.expanduser("~/.local/share/pypippark-dep")`, a value of the host
environment).  Returns the event trace and the process exit status. -/
def mainRun (s : Sys) (venvPath : String) (o : Oracle) (argv : List String) :
    List Event × Nat :=
  match parseArgs argv with
  | Except.error c => ([], c)
  | Except.ok cmd =>
    let (t, r) := match cmd with
      | Cmd.install pkgs =>
          cmd_install s venvPath o.venvExit o.chownExit pkgs o.mainExit
      | Cmd.list => cmd_list s venvPath o.venvExit o.chownExit o.mainExit
      | Cmd.remove pkgs =>
          cmd_remove s venvPath o.venvExit o.chownExit pkgs o.mainExit
      | Cmd.update =>
          cmd_update s venvPath o.venvExit o.chownExit o.selfUpExit
            o.queryExit o.queryOut o.batchExit
      | Cmd.run script args =>
          cmd_run s venvPath o.venvExit o.chownExit script args o.mainExit
    (t, interpExit r)

/-! ### Helper lemmas about the environment dictionary and search paths -/

theorem envGet_envSet_self (e : EnvMap) (k v : String) :
    envGet (envSet e k v) k = some v := by
  induction e with
  | nil => simp [envSet, envGet]
  | cons p t ih =>
    obtain ⟨k0, v0⟩ := p
    by_cases h : k0 = k <;> simp [envSet, envGet, h, ih]

theorem envGet_envSet_ne (e : EnvMap) (k v k2 : String) (h : k2 ≠ k) :
    envGet (envSet e k v) k2 = envGet e k2 := by
  induction e with
  | nil => simp [envSet, envGet, Ne.symm h]
  | cons p t ih =>
    obtain ⟨k0, v0⟩ := p
    by_cases h0 : k0 = k
    · subst h0; simp [envSet, envGet, Ne.symm h]
    · by_cases h2 : k0 = k2 <;> simp [envSet, envGet, h0, h2, ih, h]

theorem envGet_envPop_self (e : EnvMap) (k : String) :
    envGet (envPop e k) k = none := by
  induction e with
  | nil => simp [envPop, envGet]
  | cons p t ih =>
    obtain ⟨k0, v0⟩ := p
    by_cases h : k0 = k <;> simp [envPop, envGet, h, ih]

theorem envGet_envPop_ne (e : EnvMap) (k k2 : String) (h : k2 ≠ k) :
    envGet (envPop e k) k2 = envGet e k2 := by
  induction e with
  | nil => simp [envPop, envGet]
  | cons p t ih =>
    obtain ⟨k0, v0⟩ := p
    by_cases h0 : k0 = k
    · subst h0; simp [envPop, envGet, Ne.symm h, ih]
    · by_cases h2 : k0 = k2 <;> simp [envPop, envGet, h0, h2, ih, h]

theorem takeWhile_append_of_all (p : Char → Bool) (xs ys : List Char) (c : Char)
    (h : ∀ x ∈ xs, p x = true) (hc : p c = false) :
    (xs ++ c :: ys).takeWhile p = xs := by
  induction xs with
  | nil => simp [List.takeWhile, hc]
  | cons a l ih =>
    have ha : p a = true := h a (List.mem_cons_self a l)
    simp [List.takeWhile, ha, ih (fun x hx => h x (List.mem_cons_of_mem a hx))]

theorem firstPathEntry_prepend (a b : String) (h : ∀ c ∈ a.data, c ≠ ':') :
    firstPathEntry (a ++ pathsep ++ b) = a := by
  have hdata : (a ++ pathsep ++ b).data = a.data ++ ':' :: b.data := by
    simp [pathsep]
  have htw : (a.data ++ ':' :: b.data).takeWhile (fun c => c != ':') = a.data := by
    apply takeWhile_append_of_all
    · intro x hx
      simp only [bne_iff_ne, ne_eq]
      exact h x hx
    · simp
  rw [firstPathEntry, hdata, htw]

/-- The overlay of `activate_env` unfolded to the dictionary operations. -/
theorem activate_env_eq (path : String) (e : EnvMap) :
    activate_env path e =
      envPop (envSet (envSet e "VIRTUAL_ENV" path) "PATH"
        (osPathJoin path "bin" ++ pathsep ++ (envGet e "PATH").getD ""))
        "PYTHONHOME" := by
  rw [activate_env]
  rw [envGet_envSet_ne e "VIRTUAL_ENV" path "PATH" (by decide)]

/-! ### Claim theorems -/

/-- C7: for every root path and inherited environment, the overlay returned
by `activate_env` maps `VIRTUAL_ENV` to the root path, contains no
`PYTHONHOME`, maps `PATH` to the venv executable directory prepended (with
the path separator) to the previous search path, leaves every other
variable unchanged, and (whenever the executable directory itself contains
no separator) has that directory as the first search-path entry. -/
theorem activate_env_overlay_spec (path : String) (e : EnvMap) :
    envGet (activate_env path e) "VIRTUAL_ENV" = some path ∧
    envGet (activate_env path e) "PYTHONHOME" = none ∧
    envGet (activate_env path e) "PATH" =
      some (osPathJoin path "bin" ++ pathsep ++ (envGet e "PATH").getD "") ∧
    (∀ k, k ≠ "VIRTUAL_ENV" → k ≠ "PATH" → k ≠ "PYTHONHOME" →
      envGet (activate_env path e) k = envGet e k) ∧
    ((∀ c ∈ (osPathJoin path "bin").data, c ≠ ':') →
      firstPathEntry
          (osPathJoin path "bin" ++ pathsep ++ (envGet e "PATH").getD "") =
        osPathJoin path "bin") := by
  rw [activate_env_eq]
  refine ⟨?_, ?_, ?_, ?_, ?_⟩
  · rw [envGet_envPop_ne _ _ _ (by decide),
        envGet_envSet_ne _ _ _ _ (by decide),
        envGet_envSet_self]
  · exact envGet_envPop_self _ _
  · rw [envGet_envPop_ne _ _ _ (by decide), envGet_envSet_self]
  · intro k h1 h2 h3
    rw [envGet_envPop_ne _ _ _ h3, envGet_envSet_ne _ _ _ _ h2,
        envGet_envSet_ne _ _ _ _ h1]
  · intro h
    exact firstPathEntry_prepend _ _ h

/-- Witness for C7 at concrete inputs: the hypotheses of the first-entry
conjunct are discharged for root `/venv`. -/
theorem activate_env_overlay_spec_witness :
    envGet (activate_env "/venv" [("PATH", "/usr/bin"), ("PYTHONHOME", "/x")])
        "VIRTUAL_ENV" = some "/venv" ∧
    firstPathEntry
        (osPathJoin "/venv" "bin" ++ pathsep ++
          (envGet [("PATH", "/usr/bin"), ("PYTHONHOME", "/x")] "PATH").getD "") =
      osPathJoin "/venv" "bin" :=
  ⟨(activate_env_overlay_spec "/venv" [("PATH", "/usr/bin"), ("PYTHONHOME", "/x")]).1,
   (activate_env_overlay_spec "/venv" [("PATH", "/usr/bin"), ("PYTHONHOME", "/x")]).2.2.2.2
     (by decide)⟩

/-- C9: `activate_env` is pure: it leaves the interpreter state unchanged,
spawns nothing, its overlay depends only on the root path and the inherited
environment mapping, and calling it again after a call returns the same
overlay. -/
theorem activate_env_pure (s s2 : Sys) (path : String) :
    (activate_env_call s path).1 = s ∧
    (activate_env_call s path).2.1 = [] ∧
    (s.environ = s2.environ →
      (activate_env_call s path).2.2 = (activate_env_call s2 path).2.2) ∧
    (activate_env_call ((activate_env_call s path).1) path).2.2 =
      (activate_env_call s path).2.2 := by
  refine ⟨rfl, rfl, ?_, rfl⟩
  intro h
  simp [activate_env_call, h]

/-- Witness for C9: two concrete states sharing an environment but differing
everywhere else produce the same overlay. -/
theorem activate_env_pure_witness :
    (activate_env_call ⟨["/v"], [], ["/v"], 1000, "u", [("PATH", "/usr/bin")]⟩
        "/v").2.2 =
    (activate_env_call ⟨[], ["/f"], [], 0, "r", [("PATH", "/usr/bin")]⟩
        "/v").2.2 :=
  (activate_env_pure ⟨["/v"], [], ["/v"], 1000, "u", [("PATH", "/usr/bin")]⟩
    ⟨[], ["/f"], [], 0, "r", [("PATH", "/usr/bin")]⟩ "/v").2.2.1 rfl

/-- C10: when the inherited environment has no `PATH` variable, the overlay
still maps `PATH` to the venv executable directory followed by the path
separator and the empty string, and that directory is the first search-path
entry. -/
theorem activate_env_missing_path_var (path : String) (e : EnvMap)
    (h : envGet e "PATH" = none) :
    envGet (activate_env path e) "PATH" =
      some (osPathJoin path "bin" ++ pathsep ++ "") ∧
    ((∀ c ∈ (osPathJoin path "bin").data, c ≠ ':') →
      firstPathEntry (osPathJoin path "bin" ++ pathsep ++ "") =
        osPathJoin path "bin") := by
  constructor
  · rw [activate_env_eq, envGet_envPop_ne _ _ _ (by decide), envGet_envSet_self, h]
    rfl
  · intro hc
    exact firstPathEntry_prepend _ _ hc

/-- Witness for C10 at a concrete environment lacking `PATH`. -/
theorem activate_env_missing_path_var_witness :
    envGet (activate_env "/venv" [("HOME", "/home/u")]) "PATH" =
      some (osPathJoin "/venv" "bin" ++ pathsep ++ "") ∧
    firstPathEntry (osPathJoin "/venv" "bin" ++ pathsep ++ "") =
      osPathJoin "/venv" "bin" :=
  ⟨(activate_env_missing_path_var "/venv" [("HOME", "/home/u")] rfl).1,
   (activate_env_missing_path_var "/venv" [("HOME", "/home/u")] rfl).2 (by decide)⟩

/-- C1 counterexample: a root that exists as a directory but is not writable,
with a non-elevated caller (euid 1000).  `ensure_venv` does not fail with a
permission error: it performs nothing (empty trace) and returns the
executable paths as if the environment were usable. -/
theorem ensure_venv_unwritable_nonroot_cex :
    ensure_venv ⟨["/v"], [], [], 1000, "u", []⟩ "/v" 0 0 =
      ([], ⟨["/v"], [], [], 1000, "u", []⟩,
       Except.ok ("/v/bin/python3", "/v/bin/pip")) := by
  rfl

/-- C1 (amended): when the root exists as a directory but is not writable
and the caller lacks elevated privileges, `ensure_venv` performs no spawn,
no log, and no repair, and returns the executable paths without error;
the permission failure is left to surface in the later pip call. -/
theorem ensure_venv_unwritable_nonroot_returns (s : Sys) (path : String)
    (vE cE : Int)
    (hdir : path ∈ s.dirs) (hw : path ∉ s.writable) (hroot : s.euid ≠ 0) :
    ensure_venv s path vE cE =
      ([], s, Except.ok (osPathJoin (osPathJoin path "bin") "python3",
                         osPathJoin (osPathJoin path "bin") "pip")) := by
  simp [ensure_venv, hdir, hw, hroot]

/-- Witness for C1 at a concrete unwritable root with euid 500. -/
theorem ensure_venv_unwritable_nonroot_returns_witness :
    ensure_venv ⟨["/w"], [], [], 500, "u", []⟩ "/w" 7 9 =
      ([], ⟨["/w"], [], [], 500, "u", []⟩,
       Except.ok (osPathJoin (osPathJoin "/w" "bin") "python3",
                  osPathJoin (osPathJoin "/w" "bin") "pip")) :=
  ensure_venv_unwritable_nonroot_returns ⟨["/w"], [], [], 500, "u", []⟩ "/w" 7 9
    (by decide) (by decide) (by decide)

/-- C8: when a first `ensure_venv` call returns successfully, the root is a
directory afterwards, and a second call against the resulting state performs
no side effect at all (empty trace, state unchanged) — in particular no
environment-creation spawn — and returns the same pair of executable
paths. -/
theorem ensure_venv_idempotent (s : Sys) (path : String) (vE cE vE2 cE2 : Int)
    (t : List Event) (s1 : Sys) (r : String × String)
    (h : ensure_venv s path vE cE = (t, s1, Except.ok r)) :
    path ∈ s1.dirs ∧ ensure_venv s1 path vE2 cE2 = ([], s1, Except.ok r) := by
  by_cases h1 : path ∈ s.dirs
  · by_cases h2 : path ∈ s.writable
    · simp [ensure_venv, h1, h2, Prod.mk.injEq] at h
      obtain ⟨ht, hs, hr⟩ := h
      subst hs; subst hr
      exact ⟨h1, by simp [ensure_venv, h1, h2]⟩
    · by_cases h3 : s.euid = 0
      · by_cases h4 : cE = 0
        · simp [ensure_venv, h1, h2, h3, h4, Prod.mk.injEq] at h
          obtain ⟨ht, hs, hr⟩ := h
          subst hs; subst hr
          refine ⟨h1, ?_⟩
          simp [ensure_venv, h1]
        · simp [ensure_venv, h1, h2, h3, h4] at h
      · simp [ensure_venv, h1, h2, h3, Prod.mk.injEq] at h
        obtain ⟨ht, hs, hr⟩ := h
        subst hs; subst hr
        exact ⟨h1, by simp [ensure_venv, h1, h2, h3]⟩
  · by_cases h4 : vE = 0
    · simp [ensure_venv, h1, h4, Prod.mk.injEq] at h
      obtain ⟨ht, hs, hr⟩ := h
      subst hs; subst hr
      refine ⟨by simp, ?_⟩
      simp [ensure_venv]
    · simp [ensure_venv, h1, h4] at h

/-- Witness for C8: a fresh state, a successful creating first call, and the
second call with different oracle exits. -/
theorem ensure_venv_idempotent_witness :
    "/v" ∈ (⟨["/v"], [], ["/v"], 1000, "u", []⟩ : Sys).dirs ∧
    ensure_venv ⟨["/v"], [], ["/v"], 1000, "u", []⟩ "/v" 3 4 =
      ([], ⟨["/v"], [], ["/v"], 1000, "u", []⟩,
       Except.ok ("/v/bin/python3", "/v/bin/pip")) :=
  ensure_venv_idempotent ⟨[], [], [], 1000, "u", []⟩ "/v" 0 0 3 4
    [Event.logMsg "INFO" "Creating virtualenv at /v",
     Event.spawn [SYSTEM_PY, "-m", "venv", "/v"] none]
    ⟨["/v"], [], ["/v"], 1000, "u", []⟩ ("/v/bin/python3", "/v/bin/pip") rfl

theorem spawnArgvs_append (a b : List Event) :
    spawnArgvs (a ++ b) = spawnArgvs a ++ spawnArgvs b := by
  induction a with
  | nil => rfl
  | cons e t ih => cases e <;> simp [spawnArgvs, ih]

/-- C5: when the bootstrap succeeds, the pip self-upgrade succeeds, and the
outdated-package query output is blank after stripping, `update` performs
the self-upgrade spawn and the query spawn, reports success, and returns —
with no batch upgrade call in the trace. -/
theorem update_no_outdated_self_upgrade_only (s : Sys) (path : String)
    (vE cE qE bE : Int) (qOut : String) (t : List Event) (s1 : Sys)
    (pb pip : String)
    (hens : ensure_venv s path vE cE = (t, s1, Except.ok (pb, pip)))
    (hq : pyStrip qOut = "") :
    cmd_update s path vE cE 0 qE qOut bE =
      (t ++ [Event.logMsg "INFO" "Upgrading pip …",
             Event.spawn [pip, "install", "--upgrade", "pip"]
               (some (activate_env path s1.environ)),
             Event.logMsg "INFO" "Checking for outdated packages …",
             Event.spawn [pip, "list", "--outdated", "--format=freeze"]
               (some (activate_env path s1.environ)),
             Event.logMsg "SUCCESS" "All packages are already up-to-date"],
       Except.ok ()) := by
  simp [cmd_update, hens, hq]

/-- Witness for C5: existing venv, whitespace-only query output, unused
query and batch oracle exits. -/
theorem update_no_outdated_self_upgrade_only_witness :
    cmd_update ⟨["/v"], [], ["/v"], 1000, "u", []⟩ "/v" 0 0 0 9 " \n" 7 =
      ([Event.logMsg "INFO" "Upgrading pip …",
        Event.spawn ["/v/bin/pip", "install", "--upgrade", "pip"]
          (some [("VIRTUAL_ENV", "/v"), ("PATH", "/v/bin:")]),
        Event.logMsg "INFO" "Checking for outdated packages …",
        Event.spawn ["/v/bin/pip", "list", "--outdated", "--format=freeze"]
          (some [("VIRTUAL_ENV", "/v"), ("PATH", "/v/bin:")]),
        Event.logMsg "SUCCESS" "All packages are already up-to-date"],
       Except.ok ()) := by
  have h := update_no_outdated_self_upgrade_only
    ⟨["/v"], [], ["/v"], 1000, "u", []⟩ "/v" 0 0 9 7 " \n" []
    ⟨["/v"], [], ["/v"], 1000, "u", []⟩ "/v/bin/python3" "/v/bin/pip" rfl rfl
  exact h.trans (by rfl)

/-- C6: when the bootstrap succeeds, the self-upgrade succeeds, and the
query output is non-blank after stripping, `update` parses exactly the text
before the `==` token on each non-empty line of the stripped output, and the
spawned processes are exactly the bootstrap spawns, the self-upgrade, the
query, and one batch upgrade passing all parsed names. -/
theorem update_outdated_batch_upgrade (s : Sys) (path : String)
    (vE cE qE bE : Int) (qOut : String) (t : List Event) (s1 : Sys)
    (pb pip : String)
    (hens : ensure_venv s path vE cE = (t, s1, Except.ok (pb, pip)))
    (hq : pyStrip qOut ≠ "") :
    parseOutdated (pyStrip qOut) =
      ((pySplitlines (pyStrip qOut)).filter (fun l => l != "")).map
        splitEqEqHead ∧
    spawnArgvs (cmd_update s path vE cE 0 qE qOut bE).1 =
      spawnArgvs t ++
        [[pip, "install", "--upgrade", "pip"],
         [pip, "list", "--outdated", "--format=freeze"],
         [pip, "install", "--upgrade"] ++ parseOutdated (pyStrip qOut)] := by
  refine ⟨rfl, ?_⟩
  by_cases hb : bE = 0 <;>
    simp [cmd_update, hens, hq, hb, spawnArgvs_append, spawnArgvs]

/-- Witness for C6: two outdated packages in freeze format produce one batch
upgrade naming both. -/
theorem update_outdated_batch_upgrade_witness :
    spawnArgvs (cmd_update ⟨["/v"], [], ["/v"], 1000, "u", []⟩ "/v" 0 0 0 3
        "requests==2.0\nnumpy==1.0\n" 0).1 =
      [["/v/bin/pip", "install", "--upgrade", "pip"],
       ["/v/bin/pip", "list", "--outdated", "--format=freeze"],
       ["/v/bin/pip", "install", "--upgrade", "requests", "numpy"]] := by
  have h := update_outdated_batch_upgrade
    ⟨["/v"], [], ["/v"], 1000, "u", []⟩ "/v" 0 0 3 0
    "requests==2.0\nnumpy==1.0\n" [] ⟨["/v"], [], ["/v"], 1000, "u", []⟩
    "/v/bin/python3" "/v/bin/pip" rfl (by decide)
  exact h.2.trans (by rfl)

/-- C2 counterexample: against an existing venv, the outdated-package query
failing with exit code 2 is not fatal — `update` completes normally and the
process exits 0; and an `install` whose pip call fails with exit code 3
makes the process exit with status 1, not 3. -/
theorem external_failure_propagation_cex :
    (cmd_update ⟨["/v"], [], ["/v"], 1000, "u", []⟩ "/v" 0 0 0 2 "" 0).2 =
      Except.ok () ∧
    interpExit
        (cmd_update ⟨["/v"], [], ["/v"], 1000, "u", []⟩ "/v" 0 0 0 2 "" 0).2 =
      0 ∧
    interpExit
        (cmd_install ⟨["/v"], [], ["/v"], 1000, "u", []⟩ "/v" 0 0
          ["requests"] 3).2 = 1 :=
  ⟨rfl, rfl, rfl⟩

/-- C2 (amended): a failing checked invocation — venv creation, chown,
install, list, remove, script run, pip self-upgrade, or batch upgrade —
aborts the command at that spawn and the interpreter exits with status 1
(uncaught `CalledProcessError`), not with the child's exit code; the
outdated-package query is unchecked — its exit code has no influence on the
result of `update`, which continues with the captured stdout. -/
theorem external_failure_handling (s : Sys) (path : String)
    (vE cE upE qE qE2 bE iE lE rmE runE : Int) (qOut script : String)
    (pkgs args : List String) :
    cmd_update s path vE cE upE qE qOut bE =
      cmd_update s path vE cE upE qE2 qOut bE ∧
    (path ∉ s.dirs → vE ≠ 0 →
      ensure_venv s path vE cE =
        ([Event.logMsg "INFO" ("Creating virtualenv at " ++ path),
          Event.spawn [SYSTEM_PY, "-m", "venv", path] none], s,
         Except.error (PyErr.calledProcess vE))) ∧
    (path ∈ s.dirs → path ∉ s.writable → s.euid = 0 → cE ≠ 0 →
      ensure_venv s path vE cE =
        ([Event.logMsg "WARNING"
            ("Fixing ownership on " ++ path ++ " → " ++ s.user ++ ":" ++ s.user),
          Event.spawn ["chown", "-R", s.user ++ ":" ++ s.user, path] none], s,
         Except.error (PyErr.calledProcess cE))) ∧
    (∀ t s1 c,
      ensure_venv s path vE cE = (t, s1, Except.error (PyErr.calledProcess c)) →
      cmd_install s path vE cE pkgs iE =
        (t, Except.error (PyErr.calledProcess c)) ∧
      cmd_list s path vE cE lE = (t, Except.error (PyErr.calledProcess c)) ∧
      cmd_remove s path vE cE pkgs rmE =
        (t, Except.error (PyErr.calledProcess c)) ∧
      cmd_update s path vE cE upE qE qOut bE =
        (t, Except.error (PyErr.calledProcess c)) ∧
      cmd_run s path vE cE script args runE =
        (t, Except.error (PyErr.calledProcess c)) ∧
      interpExit (Except.error (PyErr.calledProcess c)) = 1) ∧
    (∀ t s1 pb pip,
      ensure_venv s path vE cE = (t, s1, Except.ok (pb, pip)) →
      (iE ≠ 0 → cmd_install s path vE cE pkgs iE =
          (t ++ [Event.logMsg "INFO"
                   ("Installing " ++ String.intercalate ", " pkgs ++ " …"),
                 Event.spawn ([pip, "install"] ++ pkgs)
                   (some (activate_env path s1.environ))],
           Except.error (PyErr.calledProcess iE)) ∧
        interpExit (cmd_install s path vE cE pkgs iE).2 = 1) ∧
      (lE ≠ 0 → cmd_list s path vE cE lE =
          (t ++ [Event.logMsg "INFO" "Listing installed packages …",
                 Event.spawn [pip, "list"]
                   (some (activate_env path s1.environ))],
           Except.error (PyErr.calledProcess lE)) ∧
        interpExit (cmd_list s path vE cE lE).2 = 1) ∧
      (rmE ≠ 0 → cmd_remove s path vE cE pkgs rmE =
          (t ++ [Event.logMsg "WARNING"
                   ("Removing " ++ String.intercalate ", " pkgs ++ " …"),
                 Event.spawn ([pip, "uninstall", "-y"] ++ pkgs)
                   (some (activate_env path s1.environ))],
           Except.error (PyErr.calledProcess rmE)) ∧
        interpExit (cmd_remove s path vE cE pkgs rmE).2 = 1) ∧
      (script ∈ s1.files → runE ≠ 0 →
        cmd_run s path vE cE script args runE =
          (t ++ [Event.logMsg "INFO" ("Running " ++ pyRepr script ++ " …"),
                 Event.spawn ([pb, script] ++ args)
                   (some (activate_env path s1.environ))],
           Except.error (PyErr.calledProcess runE)) ∧
        interpExit (cmd_run s path vE cE script args runE).2 = 1) ∧
      (upE ≠ 0 → cmd_update s path vE cE upE qE qOut bE =
          (t ++ [Event.logMsg "INFO" "Upgrading pip …",
                 Event.spawn [pip, "install", "--upgrade", "pip"]
                   (some (activate_env path s1.environ))],
           Except.error (PyErr.calledProcess upE)) ∧
        interpExit (cmd_update s path vE cE upE qE qOut bE).2 = 1) ∧
      (pyStrip qOut ≠ "" → bE ≠ 0 → cmd_update s path vE cE 0 qE qOut bE =
          (t ++ [Event.logMsg "INFO" "Upgrading pip …",
                 Event.spawn [pip, "install", "--upgrade", "pip"]
                   (some (activate_env path s1.environ)),
                 Event.logMsg "INFO" "Checking for outdated packages …",
                 Event.spawn [pip, "list", "--outdated", "--format=freeze"]
                   (some (activate_env path s1.environ)),
                 Event.logMsg "INFO"
                   ("Upgrading " ++
                     String.intercalate ", " (parseOutdated (pyStrip qOut)) ++
                     " …"),
                 Event.spawn
                   ([pip, "install", "--upgrade"] ++
                     parseOutdated (pyStrip qOut))
                   (some (activate_env path s1.environ))],
           Except.error (PyErr.calledProcess bE)) ∧
        interpExit (cmd_update s path vE cE 0 qE qOut bE).2 = 1)) := by
  refine ⟨rfl, ?_, ?_, ?_, ?_⟩
  · intro h1 h2
    simp [ensure_venv, h1, h2]
  · intro h1 h2 h3 h4
    simp [ensure_venv, h1, h2, h3, h4]
  · intro t s1 c hens
    refine ⟨?_, ?_, ?_, ?_, ?_, rfl⟩ <;>
      simp [cmd_install, cmd_list, cmd_remove, cmd_update, cmd_run, hens]
  · intro t s1 pb pip hens
    refine ⟨?_, ?_, ?_, ?_, ?_, ?_⟩
    · intro hi
      have h : cmd_install s path vE cE pkgs iE =
          (t ++ [Event.logMsg "INFO"
                   ("Installing " ++ String.intercalate ", " pkgs ++ " …"),
                 Event.spawn ([pip, "install"] ++ pkgs)
                   (some (activate_env path s1.environ))],
           Except.error (PyErr.calledProcess iE)) := by
        simp [cmd_install, hens, hi]
      exact ⟨h, by rw [h]; rfl⟩
    · intro hl
      have h : cmd_list s path vE cE lE =
          (t ++ [Event.logMsg "INFO" "Listing installed packages …",
                 Event.spawn [pip, "list"]
                   (some (activate_env path s1.environ))],
           Except.error (PyErr.calledProcess lE)) := by
        simp [cmd_list, hens, hl]
      exact ⟨h, by rw [h]; rfl⟩
    · intro hrm
      have h : cmd_remove s path vE cE pkgs rmE =
          (t ++ [Event.logMsg "WARNING"
                   ("Removing " ++ String.intercalate ", " pkgs ++ " …"),
                 Event.spawn ([pip, "uninstall", "-y"] ++ pkgs)
                   (some (activate_env path s1.environ))],
           Except.error (PyErr.calledProcess rmE)) := by
        simp [cmd_remove, hens, hrm]
      exact ⟨h, by rw [h]; rfl⟩
    · intro hsc hrun
      have h : cmd_run s path vE cE script args runE =
          (t ++ [Event.logMsg "INFO" ("Running " ++ pyRepr script ++ " …"),
                 Event.spawn ([pb, script] ++ args)
                   (some (activate_env path s1.environ))],
           Except.error (PyErr.calledProcess runE)) := by
        simp [cmd_run, hens, hsc, hrun]
      exact ⟨h, by rw [h]; rfl⟩
    · intro hup
      have h : cmd_update s path vE cE upE qE qOut bE =
          (t ++ [Event.logMsg "INFO" "Upgrading pip …",
                 Event.spawn [pip, "install", "--upgrade", "pip"]
                   (some (activate_env path s1.environ))],
           Except.error (PyErr.calledProcess upE)) := by
        simp [cmd_update, hens, hup]
      exact ⟨h, by rw [h]; rfl⟩
    · intro hq hb
      have h : cmd_update s path vE cE 0 qE qOut bE =
          (t ++ [Event.logMsg "INFO" "Upgrading pip …",
                 Event.spawn [pip, "install", "--upgrade", "pip"]
                   (some (activate_env path s1.environ)),
                 Event.logMsg "INFO" "Checking for outdated packages …",
                 Event.spawn [pip, "list", "--outdated", "--format=freeze"]
                   (some (activate_env path s1.environ)),
                 Event.logMsg "INFO"
                   ("Upgrading " ++
                     String.intercalate ", " (parseOutdated (pyStrip qOut)) ++
                     " …"),
                 Event.spawn
                   ([pip, "install", "--upgrade"] ++
                     parseOutdated (pyStrip qOut))
                   (some (activate_env path s1.environ))],
           Except.error (PyErr.calledProcess bE)) := by
        simp [cmd_update, hens, hq, hb]
      exact ⟨h, by rw [h]; rfl⟩

/-- Witness for C2: each kind of checked spawn failing at a concrete input —
venv creation (propagated through update), chown (propagated through list),
install, list, remove, script run, pip self-upgrade, and batch upgrade —
aborts with a `CalledProcessError` carrying the child's code and interpreter
status 1. -/
theorem external_failure_handling_witness :
    ensure_venv ⟨[], [], [], 1000, "u", []⟩ "/v" 7 0 =
      ([Event.logMsg "INFO" "Creating virtualenv at /v",
        Event.spawn ["/usr/bin/python3", "-m", "venv", "/v"] none],
       ⟨[], [], [], 1000, "u", []⟩,
       Except.error (PyErr.calledProcess 7)) ∧
    cmd_update ⟨[], [], [], 1000, "u", []⟩ "/v" 7 0 0 1 "x==1" 0 =
      ([Event.logMsg "INFO" "Creating virtualenv at /v",
        Event.spawn ["/usr/bin/python3", "-m", "venv", "/v"] none],
       Except.error (PyErr.calledProcess 7)) ∧
    interpExit (Except.error (PyErr.calledProcess 7)) = 1 ∧
    ensure_venv ⟨["/v"], [], [], 0, "root", []⟩ "/v" 0 9 =
      ([Event.logMsg "WARNING" "Fixing ownership on /v → root:root",
        Event.spawn ["chown", "-R", "root:root", "/v"] none],
       ⟨["/v"], [], [], 0, "root", []⟩,
       Except.error (PyErr.calledProcess 9)) ∧
    cmd_list ⟨["/v"], [], [], 0, "root", []⟩ "/v" 0 9 4 =
      ([Event.logMsg "WARNING" "Fixing ownership on /v → root:root",
        Event.spawn ["chown", "-R", "root:root", "/v"] none],
       Except.error (PyErr.calledProcess 9)) ∧
    cmd_install ⟨["/v"], [], ["/v"], 1000, "u", []⟩ "/v" 0 0 ["requests"] 3 =
      ([Event.logMsg "INFO" "Installing requests …",
        Event.spawn ["/v/bin/pip", "install", "requests"]
          (some [("VIRTUAL_ENV", "/v"), ("PATH", "/v/bin:")])],
       Except.error (PyErr.calledProcess 3)) ∧
    interpExit
        (cmd_install ⟨["/v"], [], ["/v"], 1000, "u", []⟩ "/v" 0 0
          ["requests"] 3).2 = 1 ∧
    cmd_list ⟨["/v"], [], ["/v"], 1000, "u", []⟩ "/v" 0 0 4 =
      ([Event.logMsg "INFO" "Listing installed packages …",
        Event.spawn ["/v/bin/pip", "list"]
          (some [("VIRTUAL_ENV", "/v"), ("PATH", "/v/bin:")])],
       Except.error (PyErr.calledProcess 4)) ∧
    cmd_remove ⟨["/v"], [], ["/v"], 1000, "u", []⟩ "/v" 0 0 ["requests"] 6 =
      ([Event.logMsg "WARNING" "Removing requests …",
        Event.spawn ["/v/bin/pip", "uninstall", "-y", "requests"]
          (some [("VIRTUAL_ENV", "/v"), ("PATH", "/v/bin:")])],
       Except.error (PyErr.calledProcess 6)) ∧
    cmd_run ⟨["/v"], ["/s.py"], ["/v"], 1000, "u", []⟩ "/v" 0 0 "/s.py" [] 8 =
      ([Event.logMsg "INFO" ("Running " ++ pyRepr "/s.py" ++ " …"),
        Event.spawn ["/v/bin/python3", "/s.py"]
          (some [("VIRTUAL_ENV", "/v"), ("PATH", "/v/bin:")])],
       Except.error (PyErr.calledProcess 8)) ∧
    cmd_update ⟨["/v"], [], ["/v"], 1000, "u", []⟩ "/v" 0 0 5 1 "x==1" 0 =
      ([Event.logMsg "INFO" "Upgrading pip …",
        Event.spawn ["/v/bin/pip", "install", "--upgrade", "pip"]
          (some [("VIRTUAL_ENV", "/v"), ("PATH", "/v/bin:")])],
       Except.error (PyErr.calledProcess 5)) ∧
    cmd_update ⟨["/v"], [], ["/v"], 1000, "u", []⟩ "/v" 0 0 0 1 "x==1" 2 =
      ([Event.logMsg "INFO" "Upgrading pip …",
        Event.spawn ["/v/bin/pip", "install", "--upgrade", "pip"]
          (some [("VIRTUAL_ENV", "/v"), ("PATH", "/v/bin:")]),
        Event.logMsg "INFO" "Checking for outdated packages …",
        Event.spawn ["/v/bin/pip", "list", "--outdated", "--format=freeze"]
          (some [("VIRTUAL_ENV", "/v"), ("PATH", "/v/bin:")]),
        Event.logMsg "INFO" "Upgrading x …",
        Event.spawn ["/v/bin/pip", "install", "--upgrade", "x"]
          (some [("VIRTUAL_ENV", "/v"), ("PATH", "/v/bin:")])],
       Except.error (PyErr.calledProcess 2)) := by
  have hcr := external_failure_handling ⟨[], [], [], 1000, "u", []⟩ "/v"
    7 0 0 1 9 0 3 4 6 8 "x==1" "/s.py" ["requests"] []
  have hch := external_failure_handling ⟨["/v"], [], [], 0, "root", []⟩ "/v"
    0 9 0 1 9 0 3 4 6 8 "x==1" "/s.py" ["requests"] []
  have hok := external_failure_handling ⟨["/v"], [], ["/v"], 1000, "u", []⟩
    "/v" 0 0 5 1 9 2 3 4 6 8 "x==1" "/s.py" ["requests"] []
  have hrun := external_failure_handling
    ⟨["/v"], ["/s.py"], ["/v"], 1000, "u", []⟩ "/v"
    0 0 5 1 9 2 3 4 6 8 "x==1" "/s.py" ["requests"] []
  have hokE := hok.2.2.2.2 [] ⟨["/v"], [], ["/v"], 1000, "u", []⟩
    "/v/bin/python3" "/v/bin/pip" rfl
  have hrunE := hrun.2.2.2.2 [] ⟨["/v"], ["/s.py"], ["/v"], 1000, "u", []⟩
    "/v/bin/python3" "/v/bin/pip" rfl
  refine ⟨(hcr.2.1 (by decide) (by decide)).trans (by rfl), ?_, rfl, ?_, ?_,
    ?_, ?_, ?_, ?_, ?_, ?_, ?_⟩
  · exact ((hcr.2.2.2.1
      [Event.logMsg "INFO" "Creating virtualenv at /v",
       Event.spawn ["/usr/bin/python3", "-m", "venv", "/v"] none]
      ⟨[], [], [], 1000, "u", []⟩ 7 rfl).2.2.2.1).trans (by rfl)
  · exact (hch.2.2.1 (by decide) (by decide) rfl (by decide)).trans (by rfl)
  · exact ((hch.2.2.2.1
      [Event.logMsg "WARNING" "Fixing ownership on /v → root:root",
       Event.spawn ["chown", "-R", "root:root", "/v"] none]
      ⟨["/v"], [], [], 0, "root", []⟩ 9 rfl).2.1).trans (by rfl)
  · exact ((hokE.1 (by decide)).1).trans (by rfl)
  · exact (hokE.1 (by decide)).2
  · exact ((hokE.2.1 (by decide)).1).trans (by rfl)
  · exact ((hokE.2.2.1 (by decide)).1).trans (by rfl)
  · exact ((hrunE.2.2.2.1 (by decide) (by decide)).1).trans (by rfl)
  · exact ((hokE.2.2.2.2.1 (by decide)).1).trans (by rfl)
  · exact ((hokE.2.2.2.2.2 (by decide) (by decide)).1).trans (by rfl)

/-- C3 counterexample: with the venv directory absent, `run` against a
missing script does spawn a sub-process — the venv creation — before
exiting with status 1. -/
theorem run_missing_script_cex :
    spawnArgvs
        (cmd_run ⟨[], [], [], 1000, "u", []⟩ "/v" 0 0 "/missing.py" [] 0).1 =
      [[SYSTEM_PY, "-m", "venv", "/v"]] ∧
    (cmd_run ⟨[], [], [], 1000, "u", []⟩ "/v" 0 0 "/missing.py" [] 0).2 =
      Except.error (PyErr.systemExit 1) :=
  ⟨rfl, rfl⟩

/-- C3 (amended): when the bootstrap returns successfully and the script is
not a regular file, `run` prints the script-not-found error and exits with
status 1, spawning nothing beyond the bootstrap spawns — in particular the
interpreter is never invoked on the script. -/
theorem run_missing_script_exits_one (s : Sys) (path : String)
    (vE cE rE : Int) (script : String) (args : List String) (t : List Event)
    (s1 : Sys) (pb pip : String)
    (hens : ensure_venv s path vE cE = (t, s1, Except.ok (pb, pip)))
    (hmiss : script ∉ s1.files) :
    cmd_run s path vE cE script args rE =
      (t ++ [Event.logMsg "ERROR" ("Script not found: " ++ script)],
       Except.error (PyErr.systemExit 1)) ∧
    spawnArgvs (cmd_run s path vE cE script args rE).1 = spawnArgvs t ∧
    interpExit (cmd_run s path vE cE script args rE).2 = 1 := by
  have h : cmd_run s path vE cE script args rE =
      (t ++ [Event.logMsg "ERROR" ("Script not found: " ++ script)],
       Except.error (PyErr.systemExit 1)) := by
    simp [cmd_run, hens, hmiss]
  refine ⟨h, ?_, ?_⟩
  · rw [h]
    simp [spawnArgvs_append, spawnArgvs]
  · rw [h]
    rfl

/-- Witness for C3 at an existing venv and a missing script. -/
theorem run_missing_script_exits_one_witness :
    cmd_run ⟨["/v"], [], ["/v"], 1000, "u", []⟩ "/v" 0 0 "/nope.py" ["a"] 4 =
      ([Event.logMsg "ERROR" "Script not found: /nope.py"],
       Except.error (PyErr.systemExit 1)) := by
  have h := run_missing_script_exits_one ⟨["/v"], [], ["/v"], 1000, "u", []⟩
    "/v" 0 0 4 "/nope.py" ["a"] [] ⟨["/v"], [], ["/v"], 1000, "u", []⟩
    "/v/bin/python3" "/v/bin/pip" rfl (by decide)
  exact h.1.trans (by rfl)

/-- C4 counterexample: `install` with no package names exits with status 2,
the argparse usage-error status, not 1. -/
theorem no_packages_exit_code_cex :
    mainRun ⟨["/v"], [], ["/v"], 1000, "u", []⟩ "/v" ⟨0, 0, 0, 0, "", 0, 0⟩
        ["install"] = ([], 2) ∧ (2 : Nat) ≠ 1 :=
  ⟨rfl, by decide⟩

/-- C4 (amended): invoking `install` or `remove` with no package names fails
fatally before any side effect: argparse rejects the command line with a
usage error printed to stderr and the process exits with status 2. -/
theorem no_packages_usage_error (s : Sys) (venvPath : String) (o : Oracle) :
    mainRun s venvPath o ["install"] = ([], 2) ∧
    mainRun s venvPath o ["remove"] = ([], 2) :=
  ⟨rfl, rfl⟩

end Pypippark
